import Mathlib

/-! AletheIA chat-stream pipeline — verification development.

Shallow embedding of the per-turn production pipeline of the AletheIA
repository and proofs about it:

* `services/chat-stream/src/PreparePrompt.js` — prompt preparation
  (sanitization/PII redaction, token budgeting, history compaction,
  composite assembly, language detection);
* `services/chat-stream/src/GenerateChunk.js` — the generation run
  (ordered chunk delivery over the WebSocket Delivery Port with bounded
  retries, final event with usage/cost, error handling);
* `services/chat-stream/src/SaveChatHistory.js` — idempotent persistence
  of finalized messages plus the per-conversation aggregate update.

Modelling conventions:

* JS strings are Lean `String`s (`List Char` underneath).  String lengths
  agree with JS `String.prototype.length` on all Basic-Multilingual-Plane
  text, which covers every string constant of the source and every input
  used in concrete theorems.
* Absent/`undefined` string-valued fields are modelled as `""` (both are
  falsy in JS, and the source only ever tests them with `||` / `!`).
  Numeric fields that the source guards with `Number.isFinite` are
  `Option ℤ`.
* `randomUUID()` results are explicit `fresh…` parameters.
  Timestamps (`new Date().toISOString()`, `Date.now()`) are explicit
  `now…` parameters.
* Environment-derived numeric configuration is modelled as exact naturals
  (the source parses them with `parseInt`/`parseFloat`; every concrete
  input used below keeps all float arithmetic exact, e.g. ratios that are
  powers of two and `* 0.5` on integers).  Pricing values are exact
  rationals.
* Network/storage ports are parameters: the Delivery Port is a function
  from the global attempt counter to an attempt outcome, the message
  store is an explicit list of items.
* Telemetry (structured logs, EMF metrics) has no effect on any claimed
  observable and is not modelled.
-/

set_option maxRecDepth 40000

namespace AletheIA

/-! ## JS-style string helpers (structural, kernel-computable) -/

/-- Whitespace recognised by the model for `\s`, `trim` and friends
(the ASCII subset of the JS classes; no input below uses exotic spaces). -/
def isWsCh (c : Char) : Bool :=
  c = ' ' || c = '\t' || c = '\n' || c = '\r' || c = '\x0b' || c = '\x0c'

/-- `String.prototype.trim()`. -/
def jsTrim (s : String) : String :=
  String.mk (((s.data.dropWhile isWsCh).reverse.dropWhile isWsCh).reverse)

/-- ASCII lower-casing, used for the case-insensitive regex flags. -/
def lowerAscii (c : Char) : Char :=
  if 'A' ≤ c && c ≤ 'Z' then Char.ofNat (c.toNat + 32) else c

/-- Case-insensitive substring containment (JS `/word/i.test(s)` for a
plain word with no metacharacters). -/
def containsCI (s w : String) : Bool :=
  ((s.data.map lowerAscii).tails).any (fun t => (w.data.map lowerAscii).isPrefixOf t)

/-- Non-overlapping, left-to-right occurrence count of a (non-empty)
pattern, as produced by a JS global regex over a literal string.
Structural via a fuel argument that is always instantiated with the
text length. -/
def countOccGo (pat : List Char) : ℕ → List Char → ℕ
  | 0, _ => 0
  | _fuel + 1, [] => 0
  | fuel + 1, c :: rest =>
    if pat ≠ [] && pat.isPrefixOf (c :: rest) then
      countOccGo pat fuel ((c :: rest).drop pat.length) + 1
    else
      countOccGo pat fuel rest

/-- Occurrence count of `pat` in `s` (non-overlapping, leftmost-first). -/
def countOcc (s pat : String) : ℕ := countOccGo pat.data s.data.length s.data

/-- Plain substring containment. -/
def containsSub (s pat : String) : Bool :=
  (s.data.tails).any (fun t => pat.data.isPrefixOf t)

/-- `String.prototype.padStart(w, '0')`. -/
def padStart0 (s : String) (w : ℕ) : String :=
  if s.length ≥ w then s else String.mk (List.replicate (w - s.length) '0') ++ s

/-- JS `truncate(s, n)` helper used identically by `GenerateChunk.js` and
`PreparePrompt.js`: `s.length > n ? s.slice(0, n) + '…' : s`. -/
def jsTruncate (s : String) (n : ℕ) : String :=
  if s.length > n then String.mk (s.data.take n) ++ "…" else s

/-! ## Regex engedding

The four sanitizer regexes of `PreparePrompt.js` use only literals,
character classes, greedy bounded repetition, greedy `?`, alternation and
greedy unbounded runs of a *single* character class.  We model a pattern
as a function from the input to the list of possible remainders **in the
backtracking preference order of the JS engine** (leftmost alternative
first, greedy quantifiers longest first); the engine's match at a
position is the head of that list. -/

/-- A pattern: input ↦ possible remainders, most preferred first. -/
abbrev Cands := List Char → List (List Char)

/-- Single character from a class. -/
def litC (p : Char → Bool) : Cands := fun s =>
  match s with
  | [] => []
  | c :: rest => if p c then [rest] else []

/-- Sequencing (preference order is preserved lexicographically,
exactly as a backtracking engine explores it). -/
def seqC (f g : Cands) : Cands := fun s => (f s).flatMap g

/-- Ordered alternation `a|b`. -/
def altC (f g : Cands) : Cands := fun s => f s ++ g s

/-- Greedy `r?` for a single-character class. -/
def optC (f : Cands) : Cands := fun s => f s ++ [s]

/-- Length of the maximal run of class characters. -/
def countRun (p : Char → Bool) : List Char → ℕ
  | [] => 0
  | c :: rest => if p c then countRun p rest + 1 else 0

/-- Greedy `p{m,}`: consume the maximal run, giving back one character at
a time, never fewer than `m`. -/
def runAtLeast (p : Char → Bool) (m : ℕ) : Cands := fun s =>
  let r := countRun p s
  if r < m then [] else (List.range (r - m + 1)).map (fun i => s.drop (r - i))

/-- Greedy `p*`. -/
def runStar (p : Char → Bool) : Cands := runAtLeast p 0

/-- Greedy `p+`. -/
def runPlus (p : Char → Bool) : Cands := runAtLeast p 1

/-- Greedy `p{m,n}`. -/
def repRange (p : Char → Bool) (m n : ℕ) : Cands := fun s =>
  let t := min n (countRun p s)
  if t < m then [] else (List.range (t - m + 1)).map (fun i => s.drop (t - i))

/-- Case-sensitive literal word. -/
def strC (w : String) : Cands :=
  w.data.foldr (fun c acc => seqC (litC (fun x => x = c)) acc) (fun s => [s])

/-- Case-insensitive literal word (`/i` flag). -/
def strCIC (w : String) : Cands :=
  w.data.foldr (fun c acc => seqC (litC (fun x => lowerAscii x = lowerAscii c)) acc)
    (fun s => [s])

/-- The engine's match length at the current position, if any. -/
def matchLen (f : Cands) (s : List Char) : Option ℕ :=
  (f s).head?.map (fun rest => s.length - rest.length)

/-! ## `PreparePrompt.js` — sanitisation (lines 71–91) -/

def isAsciiLetter (c : Char) : Bool := ('a' ≤ c && c ≤ 'z') || ('A' ≤ c && c ≤ 'Z')

def isDigitCh (c : Char) : Bool := '0' ≤ c && c ≤ '9'

/-- `[A-Za-z0-9._%+-]` (e-mail local part). -/
def localChar (c : Char) : Bool :=
  isAsciiLetter c || isDigitCh c || c = '.' || c = '_' || c = '%' || c = '+' || c = '-'

/-- `[A-Za-z0-9.-]` (e-mail domain part). -/
def domChar (c : Char) : Bool := isAsciiLetter c || isDigitCh c || c = '.' || c = '-'

/-- `/[A-Za-z0-9._%+-]+@[A-Za-z0-9.-]+\.[A-Za-z]{2,}/g` -/
def emailC : Cands :=
  seqC (runPlus localChar)
    (seqC (litC (fun c => c = '@'))
      (seqC (runPlus domChar)
        (seqC (litC (fun c => c = '.')) (runAtLeast isAsciiLetter 2))))

/-- `[\s-]` -/
def wsDash (c : Char) : Bool := isWsCh c || c = '-'

/-- `/\+?\d{1,3}[\s-]?(\(?\d{2,3}\)?)[\s-]?\d{3,5}[\s-]?\d{4}/g`
(the group is only a grouping; it captures nothing semantically). -/
def phoneC : Cands :=
  seqC (optC (litC (fun c => c = '+')))
    (seqC (repRange isDigitCh 1 3)
      (seqC (optC (litC wsDash))
        (seqC (optC (litC (fun c => c = '(')))
          (seqC (repRange isDigitCh 2 3)
            (seqC (optC (litC (fun c => c = ')')))
              (seqC (optC (litC wsDash))
                (seqC (repRange isDigitCh 3 5)
                  (seqC (optC (litC wsDash)) (repRange isDigitCh 4 4)))))))))

/-- Single-quote and double-quote characters (kept out of literals). -/
def sqCh : Char := Char.ofNat 39

def dqCh : Char := Char.ofNat 34

def isQuote (c : Char) : Bool := c = sqCh || c = dqCh

/-- `/(secret|token|password|senha)\s*[:=]\s*['"][^'"]{8,}['"]/gi` -/
def secretC : Cands :=
  seqC (altC (strCIC "secret") (altC (strCIC "token") (altC (strCIC "password") (strCIC "senha"))))
    (seqC (runStar isWsCh)
      (seqC (litC (fun c => c = ':' || c = '='))
        (seqC (runStar isWsCh)
          (seqC (litC isQuote)
            (seqC (runAtLeast (fun c => !isQuote c) 8) (litC isQuote))))))

/-- `\w` for the word boundaries of the AWS-key regex. -/
def isWordChar (c : Char) : Bool := isAsciiLetter c || isDigitCh c || c = '_'

/-- `[A-Z0-9]` -/
def upAlnum (c : Char) : Bool := ('A' ≤ c && c ≤ 'Z') || isDigitCh c

/-- `/\b(A3T[A-Z0-9]{16}|AKIA[0-9A-Z]{16})\b/g` — implemented directly
(both alternatives have fixed length and are mutually exclusive at any
position, so no backtracking interacts with the boundaries).  `prev` is
the character preceding the current position in the original text. -/
def awsKeyTry (prev : Option Char) (s : List Char) : Option ℕ :=
  if (prev.map isWordChar).getD false then none
  else
    let tryTail : ℕ → Option ℕ := fun k =>
      let tl := s.drop k
      if (tl.take 16).length = 16 && (tl.take 16).all upAlnum &&
          !(((tl.drop 16).head?.map isWordChar).getD false) then
        some (k + 16)
      else none
    if "A3T".data.isPrefixOf s then tryTail 3
    else if "AKIA".data.isPrefixOf s then tryTail 4
    else none

def emailTry (_prev : Option Char) (s : List Char) : Option ℕ := matchLen emailC s

def phoneTry (_prev : Option Char) (s : List Char) : Option ℕ := matchLen phoneC s

def secretTry (_prev : Option Char) (s : List Char) : Option ℕ := matchLen secretC s

/-- One global-replace pass: walk left to right, replace each match by
the placeholder and continue after it, counting matches — the semantics
of `String.prototype.replace` with a `/g` regex and a constant-producing
callback.  `fuel` is always the input length (each step consumes at
least one character, so the fuel never runs out). -/
def scanGo (tryM : Option Char → List Char → Option ℕ) (ph : List Char) :
    ℕ → Option Char → List Char → List Char × ℕ
  | 0, _, s => (s, 0)
  | fuel + 1, prev, s =>
    match s with
    | [] => ([], 0)
    | c :: rest =>
      match tryM prev (c :: rest) with
      | some (n + 1) =>
        let matched := (c :: rest).take (n + 1)
        let r := scanGo tryM ph fuel (some (matched.getLastD c)) ((c :: rest).drop (n + 1))
        (ph ++ r.1, r.2 + 1)
      | _ =>
        let r := scanGo tryM ph fuel (some c) rest
        (c :: r.1, r.2)

def runScan (tryM : Option Char → List Char → Option ℕ) (ph : List Char)
    (s : List Char) : List Char × ℕ :=
  scanGo tryM ph s.length none s

/-- Per-category redaction counters (`stats` in `sanitizeText`). -/
structure Stats where
  email : ℕ := 0
  phone : ℕ := 0
  awsKey : ℕ := 0
  secret : ℕ := 0
deriving DecidableEq, Repr

/-- `sanitizeText` (PreparePrompt.js lines 71–91): the four replacement
passes in source order.  The flag side effects on the shared `Set` are
modelled at the call sites (the handler) from the returned stats. -/
def sanitizeText (text : String) : String × Stats :=
  let e := runScan emailTry "[EMAIL]".data text.data
  let p := runScan phoneTry "[PHONE]".data e.1
  let k := runScan awsKeyTry "[AWS_ACCESS_KEY_ID]".data p.1
  let sc := runScan secretTry "[SECRET_REDACTED]".data k.1
  (String.mk sc.1, { email := e.2, phone := p.2, awsKey := k.2, secret := sc.2 })

/-- `flags.add` on the insertion-ordered JS `Set`, modelled as a
duplicate-free list. -/
def addSet (fs : List String) (x : String) : List String :=
  if x ∈ fs then fs else fs ++ [x]

/-- The four conditional `flags.add(...)` calls at the end of
`sanitizeText` (lines 84–89), driven by one call's stats. -/
def addFlags (fs : List String) (st : Stats) : List String :=
  let f1 := if st.email ≠ 0 then addSet fs "pii:email" else fs
  let f2 := if st.phone ≠ 0 then addSet f1 "pii:phone" else f1
  let f3 := if st.awsKey ≠ 0 then addSet f2 "secret:aws-key" else f2
  if st.secret ≠ 0 then addSet f3 "secret:generic" else f3

/-! ## `PreparePrompt.js` — configuration, budgeting, history, handler -/

/-- The environment-derived configuration (lines 45–55).
`tokenPerChar` is modelled as a positive natural (`TOKEN_PER_CHAR`
defaults to `'4'`); `systemInstruction` is stored post-`trim`, as in the
source. -/
structure PrepCfg where
  maxInputTokens : ℕ := 6200
  reservedOutputTokens : ℕ := 800
  maxHistoryTokens : ℕ := 4000
  maxHistoryMessages : ℕ := 12
  tokenPerChar : ℕ := 4
  redactPII : Bool := true
  systemInstruction : String := ""
  defaultLanguage : String := "pt-BR"
deriving DecidableEq, Repr

/-- `countTokens` (line 94):
`Math.max(1, Math.ceil(String(s || '').length / Math.max(1, ENV.tokenPerChar)))`;
`⌈a / r⌉ = (a + r - 1) / r` for natural `r ≥ 1`. -/
def countTokens (cfg : PrepCfg) (s : String) : ℕ :=
  let r := max 1 cfg.tokenPerChar
  max 1 ((s.length + r - 1) / r)

/-- The token-budget record carried inside a prepared prompt. -/
structure Budget where
  maxInputTokens : ℕ
  reservedOutput : ℕ
  availableForHistory : ℕ
  usedByHistory : ℕ := 0
deriving DecidableEq, Repr

/-- `budgetForPrompt` (lines 96–102).  `Math.floor(maxIn * 0.5)` is exact
float arithmetic on integers, i.e. `maxIn / 2`; the `Math.max(0, ·)`
around `reservedOut` is the identity on naturals. -/
def budgetForPrompt (cfg : PrepCfg) (userText systemText : String) : Budget :=
  let maxIn := cfg.maxInputTokens
  let reservedOut := min cfg.reservedOutputTokens (maxIn / 2)
  let baseOverhead := countTokens cfg userText + countTokens cfg systemText
  let avail := Int.toNat (min (cfg.maxHistoryTokens : ℤ)
    ((maxIn : ℤ) - (reservedOut : ℤ) - (baseOverhead : ℤ)))
  { maxInputTokens := maxIn, reservedOutput := reservedOut, availableForHistory := avail }

/-- A raw incoming history entry (`context.history[i]`); `null` entries,
removed by the source's `.filter(Boolean)`, are not representable in the
typed model. -/
structure RawHist where
  role : String := ""
  text : String := ""
  content : String := ""
deriving DecidableEq, Repr

/-- A normalized `{role, text}` utterance. -/
structure Utt where
  role : String
  text : String
deriving DecidableEq, Repr

/-- `clampHistory` (lines 105–115). -/
def clampHistory (cfg : PrepCfg) (history : List RawHist) : List Utt :=
  let norm := (history.map (fun h =>
      ({ role := if h.role = "" then "user" else h.role,
         text := if h.text ≠ "" then h.text else h.content } : Utt))).filter
    (fun h => jsTrim h.text ≠ "")
  let maxN := cfg.maxHistoryMessages
  if norm.length > maxN then norm.drop (norm.length - maxN) else norm

/-- The `while` shrink loop of `summarizeOlder` (lines 126–128):
`summary = summary.slice(Math.floor(summary.length * 0.85))` until the
estimate fits or the summary is at most 80 characters.  Structural via a
fuel that is always the initial length (each iteration strictly shrinks
the string). -/
def shrinkGo (cfg : PrepCfg) (target : ℕ) : ℕ → List Char → List Char
  | 0, s => s
  | fuel + 1, s =>
    if countTokens cfg (String.mk s) > target ∧ s.length > 80 then
      shrinkGo cfg target fuel (s.drop ((s.length * 85) / 100))
    else s

/-- `summarizeOlder` (lines 117–130): keep the last 4 entries verbatim,
summarize the rest as truncated bullets, shrinking to the target. -/
def summarizeOlder (cfg : PrepCfg) (history : List Utt) (targetTokens : ℕ) :
    List Utt × Option String :=
  let keepTail := 4
  if history.length ≤ keepTail then (history, none)
  else
    let older := history.take (history.length - keepTail)
    let recent := history.drop (history.length - keepTail)
    let bullets := older.map (fun h => "• " ++ h.role ++ ": " ++ jsTruncate h.text 140)
    let summary := String.intercalate "\n" bullets
    (recent, some (String.mk (shrinkGo cfg targetTokens summary.data.length summary.data)))

/-- `buildComposite` (lines 132–141): deterministic ordered concatenation
of the non-falsy blocks. -/
def buildComposite (system user : String) (historyKept : List Utt)
    (historySummary : Option String) : String :=
  let blocks :=
    (if system ≠ "" then ["SISTEMA:\n" ++ system] else []) ++
    (match historySummary with
     | some sm => if sm ≠ "" then ["RESUMO DO HISTÓRICO:\n" ++ sm] else []
     | none => []) ++
    (if historyKept.length ≠ 0 then
      ["HISTÓRICO RECENTE:\n" ++ String.intercalate "\n"
        (historyKept.map (fun h => "- " ++ h.role ++ ": " ++ jsTruncate h.text 180))]
     else []) ++
    ["SOLICITAÇÃO ATUAL:\n" ++ user] ++
    ["INSTRUÇÕES DE RESPOSTA:\n- Seja claro e incremental.\n- Proponha próximos passos práticos.\n- Se faltar dado, explicite as suposições.\n- Formate listas com marcadores quando útil."]
  String.intercalate "\n\n" blocks

def ptWords : List String :=
  ["que", "com", "para", "não", "sim", "erro", "problema", "melhoria", "análise", "investigação"]

def enWords : List String :=
  ["the", "and", "for", "not", "yes", "error", "issue", "improvement", "analysis", "investigation"]

/-- `detectLanguage` (lines 206–214): the two `/i` alternation regexes are
plain word lists, i.e. case-insensitive substring tests. -/
def detectLanguage (text : String) : Option String :=
  let pt := ptWords.any (fun w => containsCI text w)
  let en := enWords.any (fun w => containsCI text w)
  if pt && !en then some "pt-BR" else if en && !pt then some "en-US" else none

/-- `buildSystemInstruction` (lines 216–230). -/
def buildSystemInstruction (cfg : PrepCfg) (lang : String) : String :=
  if cfg.systemInstruction ≠ "" then cfg.systemInstruction
  else if lang = "en-US" then
    String.intercalate " "
      ["You are AletheIA, an investigative AI agent.",
       "Goals: clarify the issue, hypothesize causes, propose next steps.",
       "Style: concise, stepwise, developer-friendly."]
  else
    String.intercalate " "
      ["Você é a AletheIA, agente de investigação assistida por IA.",
       "Objetivo: esclarecer o problema, levantar hipóteses de causa e sugerir próximos passos práticos.",
       "Estilo: conciso, passo a passo, amigável a desenvolvedores."]

/-- The request body of the PreparePrompt lambda that the handler reads. -/
structure PrepIn where
  messageId : String := ""
  correlationId : String := ""
  sequence : Option ℤ := none
  text : String := ""
  history : List RawHist := []
deriving DecidableEq, Repr

/-- The `prepared` object of the response (lines 180–188). -/
structure PreparedOut where
  system : String
  user : String
  history : List Utt
  composite : String
  budget : Budget
  safetyFlags : List String
  redactions : Stats
  lang : String
deriving DecidableEq, Repr

inductive PrepResult where
  | httpErr (status : ℕ) (errCode : String) : PrepResult
  | ok (p : PreparedOut) : PrepResult
deriving DecidableEq, Repr

/-- The PreparePrompt `handler` (lines 144–197).  The fresh UUIDs for the
`messageId`/`correlationId` echoes only decorate the response envelope
and are omitted; `Math.floor(avail * 0.6)` is modelled as exact
`(avail * 6) / 10` (the binary-float `0.6` can differ by one unit at
some boundaries; no concrete input below sits on such a boundary, as the
loop guard is not reached or trivially false there). -/
def prepareHandler (cfg : PrepCfg) (input : PrepIn) : PrepResult :=
  let rawUser := jsTrim input.text
  if rawUser = "" then .httpErr 400 "missing_user_text"
  else
    let lang := (detectLanguage rawUser).getD cfg.defaultLanguage
    let userSan := if cfg.redactPII then sanitizeText rawUser else (rawUser, ({} : Stats))
    let clamped := clampHistory cfg input.history
    let histPairs := clamped.map (fun h =>
      (h, if cfg.redactPII then sanitizeText h.text else (h.text, ({} : Stats))))
    let histNorm := histPairs.map (fun p =>
      ({ role := if p.1.role = "" then "user" else p.1.role, text := p.2.1 } : Utt))
    let flags :=
      if cfg.redactPII then
        (histPairs.map (fun p => p.2.2)).foldl addFlags (addFlags [] userSan.2)
      else []
    let system := buildSystemInstruction cfg lang
    let budget := budgetForPrompt cfg userSan.1 system
    let pair := summarizeOlder cfg histNorm (max 1 ((budget.availableForHistory * 6) / 10))
    let kept := pair.1
    let summary := pair.2
    let keptTokens :=
      countTokens cfg (String.intercalate "\n" (kept.map (fun h => h.role ++ ": " ++ h.text))) +
      countTokens cfg (summary.getD "")
    let composite := buildComposite system userSan.1 kept summary
    .ok
      { system := system
        user := userSan.1
        history := kept
        composite := composite
        budget := { budget with usedByHistory := keptTokens }
        safetyFlags := flags
        redactions := userSan.2
        lang := lang }

/-- Projection: the prepared output, when the handler succeeded. -/
def prepOut : PrepResult → Option PreparedOut
  | .httpErr _ _ => none
  | .ok p => some p

/-! ## `GenerateChunk.js` — the generation run -/

/-- Exact integer floor of a rational (`Int` division is floor division). -/
def ratFloor (q : ℚ) : ℤ := q.num / (q.den : ℤ)

/-- JS `Number.prototype.toFixed(6)` (re-parsed by the unary `+`):
round to six decimals, ties away from zero resolved upward, modelled as
`⌊x·10⁶ + 1/2⌋ / 10⁶` over exact rationals. -/
def toFixed6 (x : ℚ) : ℚ := ((ratFloor (x * 1000000 + 1 / 2) : ℚ)) / 1000000

/-- Pricing/endpoint configuration of the GenerateChunk lambda; exact
rationals stand for the `parseFloat`-ed `PRICING_*` variables. -/
structure GenCfg where
  pricingIn : ℚ := 0
  pricingOut : ℚ := 0
deriving Repr

/-- `estimateTokensFromText` (line 232):
`Math.max(1, Math.ceil([...text].length / 4))`; the spread counts code
points, which is `String.length` in the model. -/
def estimateTokensFromText (s : String) : ℕ := max 1 ((s.length + 3) / 4)

/-- `estimateCostUSD` (lines 233–237). -/
def estimateCostUSD (cfg : GenCfg) (tokensIn tokensOut : ℕ) : ℚ :=
  toFixed6 ((tokensIn : ℚ) / 1000 * cfg.pricingIn + (tokensOut : ℚ) / 1000 * cfg.pricingOut)

/-- One history entry as consumed by the fallback `buildPrompt`. -/
structure HistEntry where
  role : String := ""
  text : String := ""
deriving DecidableEq, Repr

/-- `buildPrompt` (lines 355–361): preface, last 8 history entries as
truncated lines, then the question, joined with blank lines. -/
def buildPrompt (text : String) (history : List HistEntry) : String :=
  let preface := "Contexto: Você é um agente de investigação da AletheIA. Objetivo: explicar o problema e sugerir próximos passos curtos."
  let hist := history.drop (history.length - 8)
  let histStr := String.intercalate "\n" (hist.map (fun h =>
    "- " ++ (if h.role = "" then "user" else h.role) ++ ": " ++ jsTruncate h.text 180))
  String.intercalate "\n\n"
    ([preface] ++ (if histStr ≠ "" then ["Histórico:\n" ++ histStr] else []) ++
      ["Pergunta:\n" ++ text])

/-- The `prepared.budget` slice read back by GenerateChunk (line 302). -/
structure BudgetIn where
  usedByHistory : ℕ := 0
deriving DecidableEq, Repr

/-- The `input.prepared` object as read by GenerateChunk (fields it
touches; absent string fields are `""`). -/
structure PreparedIn where
  composite : String := ""
  user : String := ""
  system : String := ""
  budget : Option BudgetIn := none
deriving DecidableEq, Repr

/-- The parsed WebSocket `$default` body consumed by the handler. -/
structure GenInput where
  messageId : String := ""
  correlationId : String := ""
  sequence : Option ℤ := none
  text : String := ""
  prepared : Option PreparedIn := none
  history : List HistEntry := []
deriving DecidableEq, Repr

/-- Lines 255–264: use `prepared.composite` when present and non-blank,
otherwise the local fallback prompt. -/
def resolvePrompt (input : GenInput) : String :=
  match input.prepared with
  | some p =>
    if jsTrim p.composite ≠ "" then p.composite else buildPrompt input.text input.history
  | none => buildPrompt input.text input.history

/-- Lines 300–306: the raw prompt estimate, refined by the prepared
budget when available (`approx` is a sum of `estimateTokensFromText`
values, hence never `0`; the `approx || tokensIn` fallback is still
modelled). -/
def tokensInFor (input : GenInput) (prompt : String) : ℕ :=
  let raw := estimateTokensFromText prompt
  match input.prepared with
  | some p =>
    match p.budget with
    | some b =>
      let approx := b.usedByHistory + estimateTokensFromText p.user +
        estimateTokensFromText p.system
      if approx = 0 then raw else min raw approx
    | none => raw
  | none => raw

/-- Outcome of a single `PostToConnection` attempt as seen by `postToWs`:
delivered, HTTP 410 (recipient gone), or another (transient) failure. -/
inductive PortResp where
  | delivered : PortResp
  | gone : PortResp
  | fail : PortResp
deriving DecidableEq, Repr

/-- A wire message toward the Delivery Port (output contract of
GenerateChunk, lines 35–45). -/
structure Wire where
  messageType : String
  messageId : String
  correlationId : String
  role : String
  sequence : ℤ
  chunkIndex : ℕ
  isFinal : Bool
  text : String
  usage : Option (ℕ × ℕ) := none
  costEstimateUSD : Option ℚ := none
deriving DecidableEq, Repr

def chunkWire (outMsgId corr : String) (seq : ℤ) (idx : ℕ) (piece : String) : Wire :=
  { messageType := "chunk", messageId := outMsgId, correlationId := corr,
    role := "assistant", sequence := seq, chunkIndex := idx, isFinal := false,
    text := piece }

def finalWire (outMsgId corr : String) (seq : ℤ) (idx : ℕ) (text : String)
    (tokensIn tokensOut : ℕ) (cost : ℚ) : Wire :=
  { messageType := "final", messageId := outMsgId, correlationId := corr,
    role := "assistant", sequence := seq, chunkIndex := idx, isFinal := true,
    text := text, usage := some (tokensIn, tokensOut), costEstimateUSD := some cost }

/-- The best-effort terminal error message of the catch block
(lines 337–348). -/
def errorWire (outMsgId corr : String) (seq : ℤ) (idx : ℕ) : Wire :=
  { messageType := "error", messageId := outMsgId, correlationId := corr,
    role := "system", sequence := seq, chunkIndex := idx, isFinal := true,
    text := "Ocorreu um erro ao gerar a resposta. Tente novamente." }

/-- `postToWs` = `withRetry('ws-post', …, { tries })` (lines 96–107 and
133–147): `fn` is attempted up to `tries` times; **every** error —
including HTTP 410, which the inner catch logs as `ws.gone` and then
rethrows — re-enters the retry loop.  `port` maps the global attempt
counter to that attempt's outcome.  Returns the new counter, the list of
attempts made (one entry per `PostToConnection` call) and whether the
send eventually succeeded. -/
def postAttempts (port : ℕ → PortResp) (ctr : ℕ) (tries : ℕ) (w : Wire) :
    ℕ × List Wire × Bool :=
  match tries with
  | 0 => (ctr, [], false)
  | t + 1 =>
    match port ctr with
    | .delivered => (ctr + 1, [w], true)
    | _ =>
      let r := postAttempts port (ctr + 1) t w
      (r.1, w :: r.2.1, r.2.2)

/-- The `for await` fragment loop (lines 279–296): build the chunk event,
deliver it with retries, then advance `chunkIndex` and the aggregate.  A
delivery failure throws out of the loop (caught by the handler's catch).
Returns: new attempt counter, attempts, delivered events, final
`chunkIndex`, aggregated text, and whether the loop completed. -/
def genLoop (port : ℕ → PortResp) (outMsgId corr : String) (seq : ℤ) :
    ℕ → ℕ → String → List String → ℕ × List Wire × List Wire × ℕ × String × Bool
  | ctr, idx, agg, [] => (ctr, [], [], idx, agg, true)
  | ctr, idx, agg, piece :: rest =>
    let w := chunkWire outMsgId corr seq idx piece
    let p := postAttempts port ctr 3 w
    if p.2.2 then
      let r := genLoop port outMsgId corr seq p.1 (idx + 1) (agg ++ piece) rest
      (r.1, p.2.1 ++ r.2.1, w :: r.2.2.1, r.2.2.2)
    else (p.1, p.2.1, [], idx, agg, false)

/-- The handler's observable outcome: every Delivery Port attempt in
order, the successfully delivered events, and either the thrown error
(validation happens **before** the `try`) or the returned
`(statusCode, body.ok)`. -/
inductive GenResult where
  | thrown (msg : String) : GenResult
  | returned (status : ℕ) (bodyOk : Bool) : GenResult
deriving DecidableEq, Repr

structure GenRun where
  attempts : List Wire
  delivered : List Wire
  result : GenResult
deriving DecidableEq, Repr

/-- The GenerateChunk `handler` (lines 240–352).  `frags` is the fragment
sequence produced by the provider stream (both provider variants yield
only the non-empty text deltas; `withRetry('llm-stream', …)` wraps only
the *creation* of the lazy async generator, which cannot fail, so stream
opening is not a failure point of the model).  `freshMsg`/`freshCorr`
stand for the `randomUUID()` fallbacks of lines 249–250 and `outMsgId`
for line 266.  The handler does not persist anything — persistence lives
in the separate SaveChatHistory lambda. -/
def generateHandler (cfg : GenCfg) (port : ℕ → PortResp) (frags : List String)
    (input : GenInput) (freshMsg freshCorr outMsgId : String) : GenRun :=
  let _messageId := if input.messageId = "" then freshMsg else input.messageId
  let corr := if input.correlationId = "" then "conv-" ++ freshCorr else input.correlationId
  let seq := input.sequence.getD 0
  if input.text = "" then
    -- line 253: thrown before the try/catch — nothing is sent at all.
    { attempts := [], delivered := [], result := .thrown "payload.payload.text ausente" }
  else
    let prompt := resolvePrompt input
    let l := genLoop port outMsgId corr seq 0 0 "" frags
    let ctr1 := l.1
    let att1 := l.2.1
    let del1 := l.2.2.1
    let idxN := l.2.2.2.1
    let agg := l.2.2.2.2.1
    if l.2.2.2.2.2 then
      let tokensOut := estimateTokensFromText agg
      let tokensIn := tokensInFor input prompt
      let cost := estimateCostUSD cfg tokensIn tokensOut
      let fw := finalWire outMsgId corr seq idxN agg tokensIn tokensOut cost
      let pf := postAttempts port ctr1 3 fw
      if pf.2.2 then
        { attempts := att1 ++ pf.2.1, delivered := del1 ++ [fw],
          result := .returned 200 true }
      else
        -- the final post failed: the catch sends a best-effort error event.
        let ew := errorWire outMsgId corr seq idxN
        let pe := postAttempts port pf.1 3 ew
        { attempts := att1 ++ pf.2.1 ++ pe.2.1,
          delivered := del1 ++ (if pe.2.2 then [ew] else []),
          result := .returned 500 false }
    else
      -- a chunk delivery exhausted its retries: catch path.
      let ew := errorWire outMsgId corr seq idxN
      let pe := postAttempts port ctr1 3 ew
      { attempts := att1 ++ pe.2.1,
        delivered := del1 ++ (if pe.2.2 then [ew] else []),
        result := .returned 500 false }

/-! ## `SaveChatHistory.js` — idempotent persistence and the aggregate -/

/-- Environment of the SaveChatHistory lambda (tables assumed
configured; `MESSAGE_TTL_DAYS`). -/
structure SaveCfg where
  ttlDays : ℤ := 0
deriving DecidableEq, Repr

/-- `pad` (line 440): `String(Math.max(0, n)).padStart(12, '0')`. -/
def pad12 (n : ℤ) : String := padStart0 (toString n.toNat) 12

/-- `ttlEpoch` (line 442), with `nowMs` standing for `Date.now()`. -/
def ttlEpoch (days nowMs : ℤ) : Option ℤ :=
  if days > 0 then some (nowMs / 1000 + days * 86400) else none

/-- An incoming message of the Save handler (fields the source touches;
absent strings are `""`). -/
structure SaveMsgIn where
  messageId : String := ""
  correlationId : String := ""
  conversationId : String := ""
  sequence : Option ℤ := none
  role : String := ""
  messageType : String := ""
  text : String := ""
  payloadText : String := ""
  isFinal : Bool := false
  usage : Option (ℕ × ℕ) := none
  costEstimateUSD : Option ℚ := none
  provider : String := ""
  model : String := ""
  promptSource : String := ""
deriving DecidableEq, Repr

/-- `normalizeMessage` (lines 445–459); `freshMsg`/`freshConv` are the
two possible `randomUUID()` draws.  `none` models the thrown
`mensagem inválida` error. -/
def normalizeMessage (freshMsg freshConv : String) (m : SaveMsgIn) : Option SaveMsgIn :=
  let mid := if m.messageId = "" then freshMsg else m.messageId
  let corr :=
    if m.correlationId ≠ "" then m.correlationId
    else if m.conversationId ≠ "" then m.conversationId
    else "conv-" ++ freshConv
  let seq := m.sequence.getD 0
  let role :=
    if m.role ≠ "" then m.role
    else if m.messageType = "user" then "user" else "assistant"
  let text := if m.text ≠ "" then m.text else m.payloadText
  if text = "" ∨ corr = "" then none
  else
    some { m with
      messageId := mid, correlationId := corr, conversationId := corr,
      sequence := some seq, role := role, text := text }

/-- A stored message item (lines 467–486), with `now` standing for both
`createdAt`/`updatedAt` ISO stamps. -/
structure MsgItem where
  pk : String
  sk : String
  gsi1pk : String
  gsi1sk : String
  conversationId : String
  messageId : String
  role : String
  sequence : ℤ
  isFinal : Bool
  text : String
  usage : Option (ℕ × ℕ)
  costEstimateUSD : Option ℚ
  provider : String
  model : String
  promptSource : String
  createdAt : String
  updatedAt : String
  ttl : Option ℤ
deriving DecidableEq, Repr

/-- The per-conversation item of `TABLE_CONVERSATIONS`; `""`/`none`/`0`
stand for attributes that do not exist yet. -/
structure ConvItem where
  pk : String
  sk : String
  type : String := ""
  lastActivityAt : String := ""
  lastSequence : Option ℤ := none
  messages : ℕ := 0
  userMessages : ℕ := 0
  assistantMessages : ℕ := 0
  updatedAt : String := ""
deriving DecidableEq, Repr

/-- The whole backing store. -/
structure LedgerState where
  messages : List MsgItem := []
  convs : List ConvItem := []
deriving DecidableEq, Repr

/-- The literal pieces of the `UpdateExpression` array (lines 509–517),
including the `<setMaxSeq>` placeholder element. -/
def updateExprParts (role : String) : List String :=
  ["SET #type = if_not_exists(#type, :type),",
   "#lastAt = :now,",
   "#lastSeq = if_not_exists(#lastSeq, :neg1)",
   "      <setMaxSeq>",
   "#countTotal = if_not_exists(#countTotal, :zero) + :one,",
   if role = "user" then "#countUser = if_not_exists(#countUser, :zero) + :one,"
   else "#countAssistant = if_not_exists(#countAssistant, :zero) + :one,",
   "#updatedAt = :now"]

/-- JS `String.prototype.replace(pattern, repl)` with a *string* pattern:
replaces only the first occurrence. -/
def replaceFirstGo (pat repl : List Char) : List Char → List Char
  | [] => []
  | c :: rest =>
    if pat ≠ [] && pat.isPrefixOf (c :: rest) then repl ++ (c :: rest).drop pat.length
    else c :: replaceFirstGo pat repl rest

def jsReplaceFirst (s pat repl : String) : String :=
  String.mk (replaceFirstGo pat.data repl.data s.data)

/-- `.join(' ').replace('<setMaxSeq>', '')` (lines 517–518). -/
def updateExpr (role : String) : String :=
  jsReplaceFirst (String.intercalate " " (updateExprParts role)) "<setMaxSeq>" ""

/-- Split on commas at parenthesis depth 0 — the clause structure a
DynamoDB expression parser sees. -/
def splitTopGo : List Char → ℕ → List Char → List (List Char)
  | [], _, cur => [cur.reverse]
  | c :: rest, d, cur =>
    if c = ',' ∧ d = 0 then cur.reverse :: splitTopGo rest 0 []
    else splitTopGo rest (if c = '(' then d + 1 else if c = ')' then d - 1 else d) (c :: cur)

/-- Syntactic validity of a `SET`-only DynamoDB update expression: the
action list is comma-separated and every action is a single
`path = value` assignment (exactly one `=`).  An expression violating
this is rejected by DynamoDB with a `ValidationException`. -/
def validSetExpr (s : String) : Bool :=
  "SET ".data.isPrefixOf s.data &&
    (splitTopGo (s.data.drop 4) 0 []).all (fun cl => cl.count '=' = 1)

/-- The state transition the written `SET` clauses would perform **were
the expression syntactically valid**: note the text sets
`#lastSeq = if_not_exists(#lastSeq, :neg1)` (initialise to −1, never a
max) because the `<setMaxSeq>` placeholder was replaced by nothing. -/
def applyWrittenUpdate (convs : List ConvItem) (convId role now : String) : List ConvItem :=
  let pk := "CONV#" ++ convId
  let upd : ConvItem → ConvItem := fun c =>
    { c with
      type := if c.type = "" then "conversation" else c.type,
      lastActivityAt := now,
      lastSequence := some (c.lastSequence.getD (-1)),
      messages := c.messages + 1,
      userMessages := c.userMessages + (if role = "user" then 1 else 0),
      assistantMessages := c.assistantMessages + (if role = "user" then 0 else 1),
      updatedAt := now }
  if convs.any (fun c => c.pk = pk && c.sk = "CONVERSATION") then
    convs.map (fun c => if c.pk = pk && c.sk = "CONVERSATION" then upd c else c)
  else convs ++ [upd { pk := pk, sk := "CONVERSATION" }]

/-- `await ddb.send(update).catch(warn)` (lines 506–536): the update is
applied only if DynamoDB accepts the expression; a rejection is swallowed
by the `.catch`, leaving the conversation table untouched. -/
def convUpdate (convs : List ConvItem) (convId role now : String) : List ConvItem :=
  if validSetExpr (updateExpr role) then applyWrittenUpdate convs convId role now
  else convs

def hasKey (st : LedgerState) (pk sk : String) : Bool :=
  st.messages.any (fun it => it.pk = pk && it.sk = sk)

/-- Result of `saveOneMessage` — `{ ok: true, messageId }`. -/
structure SaveResult where
  ok : Bool
  messageId : String
deriving DecidableEq, Repr

/-- The item written by `saveOneMessage` (lines 464–486): the primary
key is `pk = CONV#<conversationId>`,
`sk = SEQ#<zero-padded sequence>#MSG#<messageId>`. -/
def mkMsgItem (cfg : SaveCfg) (now : String) (nowMs : ℤ) (msg : SaveMsgIn) : MsgItem :=
  { pk := "CONV#" ++ msg.conversationId,
    sk := "SEQ#" ++ pad12 (msg.sequence.getD 0) ++ "#MSG#" ++ msg.messageId,
    gsi1pk := "MSG#" ++ msg.messageId, gsi1sk := "CONV#" ++ msg.conversationId,
    conversationId := msg.conversationId, messageId := msg.messageId,
    role := msg.role, sequence := msg.sequence.getD 0, isFinal := msg.isFinal,
    text := msg.text, usage := msg.usage, costEstimateUSD := msg.costEstimateUSD,
    provider := msg.provider, model := msg.model, promptSource := msg.promptSource,
    createdAt := now, updatedAt := now, ttl := ttlEpoch cfg.ttlDays nowMs }

/-- `saveOneMessage` (lines 462–539): normalize, build the item, attempt
a create-only put conditioned on `(pk, sk)` — the
`ConditionalCheckFailedException` of a duplicate is swallowed and
treated as an idempotent success — then fire the (always-rejected, see
`validSetExpr`) conversation update, and return `{ ok: true }`.  `none`
models the rethrown normalization error. -/
def saveOneMessage (cfg : SaveCfg) (now : String) (nowMs : ℤ)
    (freshMsg freshConv : String) (st : LedgerState) (m : SaveMsgIn) :
    Option (LedgerState × SaveResult) :=
  match normalizeMessage freshMsg freshConv m with
  | none => none
  | some msg =>
    let item := mkMsgItem cfg now nowMs msg
    let messages' := if hasKey st item.pk item.sk then st.messages else st.messages ++ [item]
    let convs' := convUpdate st.convs msg.conversationId msg.role now
    some ({ messages := messages', convs := convs' }, { ok := true, messageId := msg.messageId })

/-- The per-request counters of the Save handler loop. -/
structure SaveStats where
  saved : ℕ := 0
  idem : ℕ := 0
  roleUser : ℕ := 0
  roleAssistant : ℕ := 0
deriving DecidableEq, Repr

/-- The loop body of the Save `handler` (lines 586–598), folded over the
batch with an index into the fresh-UUID supply.  A normalization error
is logged and skipped (its name is never
`ConditionalCheckFailedException`, so `idem` cannot move — duplicates are
already swallowed inside `saveOneMessage`). -/
def saveLoop (cfg : SaveCfg) (now : String) (nowMs : ℤ) (fresh : ℕ → String × String) :
    ℕ → LedgerState → SaveStats → List SaveMsgIn → LedgerState × SaveStats
  | _, st, stats, [] => (st, stats)
  | i, st, stats, m :: rest =>
    match normalizeMessage (fresh i).1 (fresh i).2 m with
    | none => saveLoop cfg now nowMs fresh (i + 1) st stats rest
    | some norm =>
      let stats1 :=
        if norm.role = "user" then { stats with roleUser := stats.roleUser + 1 }
        else { stats with roleAssistant := stats.roleAssistant + 1 }
      match saveOneMessage cfg now nowMs (fresh i).1 (fresh i).2 st norm with
      | some (st', r) =>
        saveLoop cfg now nowMs fresh (i + 1) st'
          { stats1 with saved := stats1.saved + (if r.ok then 1 else 0) } rest
      | none => saveLoop cfg now nowMs fresh (i + 1) st stats1 rest

/-- The SaveChatHistory `handler` (lines 573–602) for an
already-parsed batch (tables configured, body valid).  Returns the new
store, the counters, and the `(statusCode, body.saved)` response. -/
def saveHandler (cfg : SaveCfg) (now : String) (nowMs : ℤ) (fresh : ℕ → String × String)
    (st : LedgerState) (msgs : List SaveMsgIn) : LedgerState × SaveStats × ℕ × ℕ :=
  let r := saveLoop cfg now nowMs fresh 0 st {} msgs
  (r.1, r.2, 200, r.2.saved)

/-! ## Derived notions used by the statements -/

/-- In-order concatenation of fragment texts (`aggregated += piece`). -/
def concatList : List String → String
  | [] => ""
  | s :: rest => s ++ concatList rest

/-- The counter of `Stats` that backs a given safety-flag name. -/
def catCount (flag : String) (st : Stats) : ℕ :=
  if flag = "pii:email" then st.email
  else if flag = "pii:phone" then st.phone
  else if flag = "secret:aws-key" then st.awsKey
  else if flag = "secret:generic" then st.secret
  else 0

/-- The four safety-flag names. -/
def flagNames (flag : String) : Prop :=
  flag = "pii:email" ∨ flag = "pii:phone" ∨ flag = "secret:aws-key" ∨ flag = "secret:generic"

/-- The spec's token-estimate formula, written from its words:
`ceil(characterCount / tokensPerChar)` (refinement target to compare
with the source's `countTokens`). -/
def specTokenEstimate (tokensPerChar : ℕ) (s : String) : ℕ :=
  (s.length + tokensPerChar - 1) / tokensPerChar

/-- `overhead` as the spec defines it: estimated tokens of the sanitized
user text plus the system instruction. -/
def overheadOf (cfg : PrepCfg) (p : PreparedOut) : ℕ :=
  countTokens cfg p.user + countTokens cfg p.system

/-- Whether the spec's budget invariant
`reservedOutputTokens + overhead + usedByHistory ≤ maxInputTokens`
holds on a handler result. -/
def budgetInvariantHolds (cfg : PrepCfg) (r : PrepResult) : Option Bool :=
  (prepOut r).map (fun p =>
    decide (p.budget.reservedOutput + overheadOf cfg p + p.budget.usedByHistory ≤
      cfg.maxInputTokens))

/-! ### Concrete inputs used by counterexamples and witnesses -/

/-- A small, valid configuration: budget 10, ratio 1, reserved 0,
no redaction, one-character system instruction. -/
def cfgTight : PrepCfg :=
  { maxInputTokens := 10, reservedOutputTokens := 0, maxHistoryTokens := 100,
    maxHistoryMessages := 12, tokenPerChar := 1, redactPII := false,
    systemInstruction := "S", defaultLanguage := "pt-BR" }

/-- A thirty-character user turn. -/
def inThirtyA : PrepIn := { text := String.mk (List.replicate 30 'a') }

/-- The spec's redaction example input. -/
def inEmailExample : PrepIn := { text := "My email is a@b.com" }

/-- A clean user turn whose (single, retained) history entry carries an
e-mail address. -/
def inHistEmail : PrepIn :=
  { text := "oi tudo bem", history := [{ role := "user", text := "contact a@b.com" }] }

/-- A minimal valid generation request. -/
def genInputOi : GenInput := { text := "Oi", correlationId := "c1", sequence := some 21 }

/-- A generation request with empty user text. -/
def genInputEmpty : GenInput := { text := "", correlationId := "c1" }

/-- A fully-identified finalized message. -/
def msgM1 : SaveMsgIn :=
  { messageId := "m1", conversationId := "c1", sequence := some 1, role := "assistant",
    text := "hello" }

/-- The same message retried with a different caller-assigned sequence. -/
def msgM1seq2 : SaveMsgIn := { msgM1 with sequence := some 2 }

/-- The same message with the conversation carried in `correlationId`. -/
def msgW : SaveMsgIn :=
  { messageId := "m1", correlationId := "c1", sequence := some 1, role := "assistant",
    text := "hello" }

/-- A message with no caller-supplied message identifier. -/
def msgNoId : SaveMsgIn :=
  { correlationId := "c1", sequence := some 3, role := "assistant", text := "oi" }

/-- An assistant message with sequence 5 for the aggregate claim. -/
def msgSeq5 : SaveMsgIn :=
  { messageId := "m1", conversationId := "c1", sequence := some 5, role := "assistant",
    text := "hello" }

/-! ## Helper lemmas -/

theorem mem_addSet {fs : List String} {x y : String} :
    y ∈ addSet fs x ↔ y ∈ fs ∨ y = x := by
  unfold addSet
  split
  · next h => constructor
              · exact Or.inl
              · rintro (hy | rfl) <;> assumption
  · simp

/-! ## Claim C4 — the budget invariant -/

/-- **C4, counterexample.**  With the valid configuration `cfgTight`
(maxInputTokens 10, reserved 0, ratio 1, system instruction `"S"`) and a
thirty-character user turn, `prepare` succeeds but
`reservedOutputTokens + overhead + usedByHistory = 0 + 31 + 2 = 33 > 10`:
the claimed invariant is false. -/
theorem budget_invariant_cex :
    budgetInvariantHolds cfgTight (prepareHandler cfgTight inThirtyA) = some false := by
  decide

/-- **C4, amended.**  The budget arithmetic only bounds
`availableForHistory`: whenever the reserved output plus the overhead of
the sanitized user text and the system instruction fit in
`maxInputTokens`, `reservedOutput + overhead + availableForHistory ≤
maxInputTokens`.  `usedByHistory` (the estimate of what the kept history
actually consumed) is not bounded by the budget, as the counterexample
shows. -/
theorem budget_available_bound (cfg : PrepCfg) (userText systemText : String)
    (h : countTokens cfg userText + countTokens cfg systemText +
      (budgetForPrompt cfg userText systemText).reservedOutput ≤ cfg.maxInputTokens) :
    (budgetForPrompt cfg userText systemText).reservedOutput +
      (countTokens cfg userText + countTokens cfg systemText) +
      (budgetForPrompt cfg userText systemText).availableForHistory ≤
      cfg.maxInputTokens := by
  simp only [budgetForPrompt] at h ⊢
  omega

/-- **C4, witness** for `budget_available_bound` at the repository's
default configuration and a tiny turn. -/
theorem budget_available_bound_witness :
    (countTokens {} "Oi" + countTokens {} (buildSystemInstruction {} "pt-BR") +
      (budgetForPrompt {} "Oi" (buildSystemInstruction {} "pt-BR")).reservedOutput ≤
      ({} : PrepCfg).maxInputTokens) ∧
    (budgetForPrompt {} "Oi" (buildSystemInstruction {} "pt-BR")).reservedOutput +
      (countTokens {} "Oi" + countTokens {} (buildSystemInstruction {} "pt-BR")) +
      (budgetForPrompt {} "Oi" (buildSystemInstruction {} "pt-BR")).availableForHistory ≤
      ({} : PrepCfg).maxInputTokens :=
  ⟨by decide, budget_available_bound {} "Oi" (buildSystemInstruction {} "pt-BR") (by decide)⟩

theorem mem_ite_addSet {fs : List String} {x y : String} {c : Prop} [Decidable c] :
    y ∈ (if c then addSet fs x else fs) ↔ y ∈ fs ∨ (c ∧ y = x) := by
  split <;> simp_all [mem_addSet]

theorem mem_addFlags {fs : List String} {st : Stats} {flag : String} :
    flag ∈ addFlags fs st ↔ flag ∈ fs ∨
      (st.email ≠ 0 ∧ flag = "pii:email") ∨ (st.phone ≠ 0 ∧ flag = "pii:phone") ∨
      (st.awsKey ≠ 0 ∧ flag = "secret:aws-key") ∨
      (st.secret ≠ 0 ∧ flag = "secret:generic") := by
  unfold addFlags
  rw [mem_ite_addSet, mem_ite_addSet, mem_ite_addSet, mem_ite_addSet]
  tauto

theorem mem_addFlags_cat {fs : List String} {st : Stats} {flag : String}
    (hf : flagNames flag) :
    flag ∈ addFlags fs st ↔ flag ∈ fs ∨ catCount flag st ≠ 0 := by
  rcases hf with rfl | rfl | rfl | rfl <;> rw [mem_addFlags] <;> simp [catCount]

theorem mem_foldl_addFlags {flag : String} (hf : flagNames flag) :
    ∀ (l : List Stats) (init : List String),
      flag ∈ l.foldl addFlags init ↔ flag ∈ init ∨ ∃ st ∈ l, catCount flag st ≠ 0
  | [], init => by simp
  | st :: rest, init => by
    rw [List.foldl_cons, mem_foldl_addFlags hf rest, mem_addFlags_cat hf,
      List.exists_mem_cons_iff]
    tauto

/-! ## Claim C5 — the numeric formulas of the budget -/

/-- **C5, counterexample.**  The source's token estimate of the empty
string is 1, not `ceil(0 / 4) = 0`: `countTokens` takes a
`Math.max(1, ·)` the claim's formula lacks. -/
theorem token_estimate_cex :
    countTokens {} "" ≠ specTokenEstimate 4 "" ∧
    countTokens {} "" = 1 ∧ specTokenEstimate 4 "" = 0 := by
  decide

/-- **C5, amended.**  For every configuration and string the source's
estimate equals `max 1 (ceil(chars / max 1 tokensPerChar))` — the
claim's formula only after clamping both the ratio and the result at 1 —
while the claimed equations for `reservedOutputTokens` (with `floor(maxIn
* 0.5) = maxIn / 2`) and `availableForHistory` hold as stated. -/
theorem budget_formulas (cfg : PrepCfg) (s userText systemText : String) :
    countTokens cfg s = max 1 (specTokenEstimate (max 1 cfg.tokenPerChar) s) ∧
    (budgetForPrompt cfg userText systemText).reservedOutput =
      min cfg.reservedOutputTokens (cfg.maxInputTokens / 2) ∧
    ((budgetForPrompt cfg userText systemText).availableForHistory : ℤ) =
      max 0 (min (cfg.maxHistoryTokens : ℤ)
        ((cfg.maxInputTokens : ℤ) -
          ((budgetForPrompt cfg userText systemText).reservedOutput : ℤ) -
          ((countTokens cfg userText + countTokens cfg systemText : ℕ) : ℤ))) := by
  refine ⟨rfl, rfl, ?_⟩
  simp only [budgetForPrompt]
  omega

/-! ## Claim C9 — redaction scope, counts and flags -/

/-- **C9, counterexample.**  With redaction enabled, the (single,
retained) history entry `"contact a@b.com"` contains exactly one e-mail
match, and the handler raises the `pii:email` flag for it — yet the
returned safety record reports `email = 0` redactions, because the
handler returns only the user text's counters (`userSan.stats`) and
discards the history counters.  The per-category counts therefore do not
equal the matched occurrences across the scanned inputs. -/
theorem redaction_counts_cex :
    (sanitizeText "contact a@b.com").2.email = 1 ∧
    ((prepOut (prepareHandler {} inHistEmail)).map
        (fun p => (p.redactions.email, decide ("pii:email" ∈ p.safetyFlags)))) =
      some (0, true) := by
  decide

/-- **C9, amended.**  With redaction enabled, `prepare` scans the raw
user text and every retained history entry, replacing matches with the
category placeholders; a named flag is present exactly for the
categories with at least one match in **any** scanned input, but the
returned per-category redaction counts cover the matches of the user
text only (history matches are not counted).  In particular, input
`"My email is a@b.com"` yields output without `"a@b.com"`, exactly one
e-mail placeholder, the e-mail count 1 and the `pii:email` flag. -/
theorem redaction_scope :
    (∀ (cfg : PrepCfg) (input : PrepIn), cfg.redactPII = true →
      jsTrim input.text ≠ "" →
      ∃ p, prepareHandler cfg input = .ok p ∧
        p.redactions = (sanitizeText (jsTrim input.text)).2 ∧
        ∀ flag, flagNames flag →
          (flag ∈ p.safetyFlags ↔
            catCount flag (sanitizeText (jsTrim input.text)).2 ≠ 0 ∨
            ∃ h ∈ clampHistory cfg input.history,
              catCount flag (sanitizeText h.text).2 ≠ 0)) ∧
    (∃ p, prepareHandler {} inEmailExample = .ok p ∧
      containsSub p.user "a@b.com" = false ∧
      countOcc p.user "[EMAIL]" = 1 ∧
      p.redactions.email = 1 ∧
      "pii:email" ∈ p.safetyFlags) := by
  constructor
  · intro cfg input hr ht
    simp only [prepareHandler, hr, if_true, if_neg ht]
    refine ⟨_, rfl, rfl, ?_⟩
    intro flag hf
    rw [List.map_map, mem_foldl_addFlags hf, mem_addFlags_cat hf]
    simp [List.mem_map]
  · refine ⟨_, rfl, ?_, ?_, ?_, ?_⟩ <;> decide

/-- **C9, witness** for `redaction_scope` at the default configuration
and the history-carried e-mail input. -/
theorem redaction_scope_witness :
    ({} : PrepCfg).redactPII = true ∧ jsTrim inHistEmail.text ≠ "" ∧
    (∃ p, prepareHandler {} inHistEmail = .ok p ∧
      p.redactions = (sanitizeText (jsTrim inHistEmail.text)).2 ∧
      ∀ flag, flagNames flag →
        (flag ∈ p.safetyFlags ↔
          catCount flag (sanitizeText (jsTrim inHistEmail.text)).2 ≠ 0 ∨
          ∃ h ∈ clampHistory {} inHistEmail.history,
            catCount flag (sanitizeText h.text).2 ≠ 0)) :=
  ⟨by decide, by decide, redaction_scope.1 {} inHistEmail (by decide) (by decide)⟩

/-! ## Delivery/retry lemmas for the generation run -/

theorem postAttempts_ok (ctr : ℕ) (w : Wire) (t : ℕ) :
    postAttempts (fun _ => PortResp.delivered) ctr (t + 1) w = (ctr + 1, [w], true) :=
  rfl

theorem postAttempts_gone (ctr : ℕ) (w : Wire) :
    postAttempts (fun _ => PortResp.gone) ctr 3 w = (ctr + 3, [w, w, w], false) := by
  show (_, _, _) = _
  norm_num [postAttempts]

theorem genLoop_ok (om corr : String) (seq : ℤ) (frags : List String) :
    ∀ ctr idx agg,
      genLoop (fun _ => PortResp.delivered) om corr seq ctr idx agg frags =
        (ctr + frags.length,
         (List.enumFrom idx frags).map (fun p => chunkWire om corr seq p.1 p.2),
         (List.enumFrom idx frags).map (fun p => chunkWire om corr seq p.1 p.2),
         idx + frags.length, agg ++ concatList frags, true) := by
  induction frags with
  | nil => intro ctr idx agg; simp [genLoop, List.enumFrom, concatList]
  | cons piece rest ih =>
    intro ctr idx agg
    rw [genLoop, postAttempts_ok]
    simp only [ih, List.enumFrom, List.map_cons, concatList, Prod.mk.injEq,
      String.append_assoc, List.singleton_append, and_true, true_and]
    simp only [ite_true, List.length_cons, Prod.mk.injEq, and_true, true_and]
    omega

theorem ratFloor_nonneg {q : ℚ} (h : 0 ≤ q) : 0 ≤ ratFloor q :=
  Int.ediv_nonneg (Rat.num_nonneg.mpr h) (by positivity)

theorem toFixed6_nonneg {x : ℚ} (h : 0 ≤ x) : 0 ≤ toFixed6 x := by
  unfold toFixed6
  have : (0 : ℤ) ≤ ratFloor (x * 1000000 + 1 / 2) := ratFloor_nonneg (by positivity)
  positivity

theorem estimateCostUSD_nonneg (cfg : GenCfg) (tIn tOut : ℕ)
    (hin : 0 ≤ cfg.pricingIn) (hout : 0 ≤ cfg.pricingOut) :
    0 ≤ estimateCostUSD cfg tIn tOut :=
  toFixed6_nonneg (by positivity)

/-! ## Claim C1 — ordered chunk delivery, terminal event, usage and cost -/

/-- **C1, confirmed.**  For every run whose provider stream yields
`frags` (N fragments) and whose Delivery Port delivers every attempt,
the events delivered for the run's message identifier `om` are exactly
the N non-terminal chunk events with indices 0, …, N−1 in fragment
order, followed by one terminal event with chunk index N carrying the
in-order concatenation of the fragments, usage `{input, output}` and a
cost estimate that is nonnegative whenever the configured prices are. -/
theorem stream_order (cfg : GenCfg) (frags : List String) (input : GenInput)
    (fm fc om : String) (ht : input.text ≠ "")
    (hin : 0 ≤ cfg.pricingIn) (hout : 0 ≤ cfg.pricingOut) :
    (generateHandler cfg (fun _ => PortResp.delivered) frags input fm fc om =
      { attempts :=
          (List.enumFrom 0 frags).map (fun p =>
            chunkWire om (if input.correlationId = "" then "conv-" ++ fc else input.correlationId)
              (input.sequence.getD 0) p.1 p.2) ++
          [finalWire om
            (if input.correlationId = "" then "conv-" ++ fc else input.correlationId)
            (input.sequence.getD 0) frags.length (concatList frags)
            (tokensInFor input (resolvePrompt input))
            (estimateTokensFromText (concatList frags))
            (estimateCostUSD cfg (tokensInFor input (resolvePrompt input))
              (estimateTokensFromText (concatList frags)))],
        delivered :=
          (List.enumFrom 0 frags).map (fun p =>
            chunkWire om (if input.correlationId = "" then "conv-" ++ fc else input.correlationId)
              (input.sequence.getD 0) p.1 p.2) ++
          [finalWire om
            (if input.correlationId = "" then "conv-" ++ fc else input.correlationId)
            (input.sequence.getD 0) frags.length (concatList frags)
            (tokensInFor input (resolvePrompt input))
            (estimateTokensFromText (concatList frags))
            (estimateCostUSD cfg (tokensInFor input (resolvePrompt input))
              (estimateTokensFromText (concatList frags)))],
        result := .returned 200 true }) ∧
    0 ≤ estimateCostUSD cfg (tokensInFor input (resolvePrompt input))
      (estimateTokensFromText (concatList frags)) := by
  refine ⟨?_, estimateCostUSD_nonneg cfg _ _ hin hout⟩
  simp [generateHandler, ht, genLoop_ok, postAttempts_ok]

/-- **C1, witness**: two fragments `["Hel", "lo"]`, free pricing,
all deliveries succeed. -/
theorem stream_order_witness :
    (genInputOi.text ≠ "" ∧ (0 : ℚ) ≤ 0 ∧ (0 : ℚ) ≤ 1) ∧
    (generateHandler { pricingIn := 0, pricingOut := 1 } (fun _ => PortResp.delivered)
        ["Hel", "lo"] genInputOi "fm" "fc" "out1" =
      { attempts :=
          (List.enumFrom 0 ["Hel", "lo"]).map (fun p =>
            chunkWire "out1"
              (if genInputOi.correlationId = "" then "conv-" ++ "fc" else genInputOi.correlationId)
              (genInputOi.sequence.getD 0) p.1 p.2) ++
          [finalWire "out1"
            (if genInputOi.correlationId = "" then "conv-" ++ "fc" else genInputOi.correlationId)
            (genInputOi.sequence.getD 0) (["Hel", "lo"] : List String).length
            (concatList ["Hel", "lo"])
            (tokensInFor genInputOi (resolvePrompt genInputOi))
            (estimateTokensFromText (concatList ["Hel", "lo"]))
            (estimateCostUSD { pricingIn := 0, pricingOut := 1 }
              (tokensInFor genInputOi (resolvePrompt genInputOi))
              (estimateTokensFromText (concatList ["Hel", "lo"])))],
        delivered :=
          (List.enumFrom 0 ["Hel", "lo"]).map (fun p =>
            chunkWire "out1"
              (if genInputOi.correlationId = "" then "conv-" ++ "fc" else genInputOi.correlationId)
              (genInputOi.sequence.getD 0) p.1 p.2) ++
          [finalWire "out1"
            (if genInputOi.correlationId = "" then "conv-" ++ "fc" else genInputOi.correlationId)
            (genInputOi.sequence.getD 0) (["Hel", "lo"] : List String).length
            (concatList ["Hel", "lo"])
            (tokensInFor genInputOi (resolvePrompt genInputOi))
            (estimateTokensFromText (concatList ["Hel", "lo"]))
            (estimateCostUSD { pricingIn := 0, pricingOut := 1 }
              (tokensInFor genInputOi (resolvePrompt genInputOi))
              (estimateTokensFromText (concatList ["Hel", "lo"])))],
        result := .returned 200 true } ∧
      0 ≤ estimateCostUSD { pricingIn := 0, pricingOut := 1 }
        (tokensInFor genInputOi (resolvePrompt genInputOi))
        (estimateTokensFromText (concatList ["Hel", "lo"]))) :=
  ⟨⟨by decide, le_refl 0, zero_le_one⟩,
    stream_order { pricingIn := 0, pricingOut := 1 } ["Hel", "lo"] genInputOi
      "fm" "fc" "out1" (by decide) (le_refl 0) zero_le_one⟩

/-! ## Claim C2 — behaviour on a gone (HTTP 410) recipient -/

/-- **C2, counterexample.**  Provider fragments `["Hel", "lo"]`, and the
Delivery Port answers HTTP 410 on every attempt.  The handler attempts
the chunk-0 send **three times** (the 410 is retried like any error),
then aborts the run: the remaining fragment is never consumed, no
terminal record is produced (nothing is delivered at all), and the catch
block attempts a best-effort terminal error event (three more attempts)
before returning the failed outcome. -/
theorem gone_retry_cex :
    generateHandler {} (fun _ => PortResp.gone) ["Hel", "lo"] genInputOi "fm" "fc" "out1" =
      { attempts :=
          [chunkWire "out1" "c1" 21 0 "Hel", chunkWire "out1" "c1" 21 0 "Hel",
           chunkWire "out1" "c1" 21 0 "Hel", errorWire "out1" "c1" 21 0,
           errorWire "out1" "c1" 21 0, errorWire "out1" "c1" 21 0],
        delivered := [],
        result := .returned 500 false } := by
  decide

/-- **C2, amended.**  A "recipient gone" (HTTP 410) outcome is retried
exactly like a transient failure, up to the three-attempt cap of
`postToWs`; once the retries are exhausted the whole run aborts —
no further fragments are consumed or aggregated and no terminal record
is produced — and one best-effort terminal error event is attempted
(itself retried three times against the gone recipient) before the
handler returns the failed outcome. -/
theorem gone_retry (cfg : GenCfg) (piece : String) (rest : List String)
    (input : GenInput) (fm fc om : String) (ht : input.text ≠ "") :
    generateHandler cfg (fun _ => PortResp.gone) (piece :: rest) input fm fc om =
      { attempts :=
          [chunkWire om (if input.correlationId = "" then "conv-" ++ fc else input.correlationId)
            (input.sequence.getD 0) 0 piece,
           chunkWire om (if input.correlationId = "" then "conv-" ++ fc else input.correlationId)
            (input.sequence.getD 0) 0 piece,
           chunkWire om (if input.correlationId = "" then "conv-" ++ fc else input.correlationId)
            (input.sequence.getD 0) 0 piece,
           errorWire om (if input.correlationId = "" then "conv-" ++ fc else input.correlationId)
            (input.sequence.getD 0) 0,
           errorWire om (if input.correlationId = "" then "conv-" ++ fc else input.correlationId)
            (input.sequence.getD 0) 0,
           errorWire om (if input.correlationId = "" then "conv-" ++ fc else input.correlationId)
            (input.sequence.getD 0) 0],
        delivered := [],
        result := .returned 500 false } := by
  simp only [generateHandler, if_neg ht, genLoop, postAttempts_gone]
  simp

/-- **C2, witness** for `gone_retry` at the concrete two-fragment run. -/
theorem gone_retry_witness :
    genInputOi.text ≠ "" ∧
    generateHandler {} (fun _ => PortResp.gone) ("Hel" :: ["lo"]) genInputOi "fm" "fc" "out2" =
      { attempts :=
          [chunkWire "out2" (if genInputOi.correlationId = "" then "conv-" ++ "fc" else genInputOi.correlationId)
            (genInputOi.sequence.getD 0) 0 "Hel",
           chunkWire "out2" (if genInputOi.correlationId = "" then "conv-" ++ "fc" else genInputOi.correlationId)
            (genInputOi.sequence.getD 0) 0 "Hel",
           chunkWire "out2" (if genInputOi.correlationId = "" then "conv-" ++ "fc" else genInputOi.correlationId)
            (genInputOi.sequence.getD 0) 0 "Hel",
           errorWire "out2" (if genInputOi.correlationId = "" then "conv-" ++ "fc" else genInputOi.correlationId)
            (genInputOi.sequence.getD 0) 0,
           errorWire "out2" (if genInputOi.correlationId = "" then "conv-" ++ "fc" else genInputOi.correlationId)
            (genInputOi.sequence.getD 0) 0,
           errorWire "out2" (if genInputOi.correlationId = "" then "conv-" ++ "fc" else genInputOi.correlationId)
            (genInputOi.sequence.getD 0) 0],
        delivered := [],
        result := .returned 500 false } :=
  ⟨by decide, gone_retry {} "Hel" ["lo"] genInputOi "fm" "fc" "out2" (by decide)⟩

/-! ## Claim C8 — validation failure -/

/-- **C8, counterexample.**  On empty user text the handler throws
`payload.payload.text ausente` **before** entering the try/catch: no
event of any kind is attempted or delivered (so no best-effort terminal
error event is sent), and no `(500, failed)` outcome is returned — the
invocation errors out. -/
theorem validation_cex :
    generateHandler {} (fun _ => PortResp.delivered) ["x"] genInputEmpty "fm" "fc" "out1" =
      { attempts := [], delivered := [],
        result := .thrown "payload.payload.text ausente" } := by
  decide

/-- **C8, amended.**  When `generate` is invoked with empty or missing
user text, it performs no retry, nothing is persisted (the handler never
persists anything — persistence lives in the separate SaveChatHistory
lambda), **no** event is sent to the recipient, and the invocation fails
by throwing the validation error to the caller instead of returning the
failed outcome. -/
theorem validation_throws (cfg : GenCfg) (port : ℕ → PortResp) (frags : List String)
    (input : GenInput) (fm fc om : String) (ht : input.text = "") :
    generateHandler cfg port frags input fm fc om =
      { attempts := [], delivered := [],
        result := .thrown "payload.payload.text ausente" } := by
  simp [generateHandler, ht]

/-- **C8, witness** for `validation_throws`. -/
theorem validation_throws_witness :
    genInputEmpty.text = "" ∧
    generateHandler {} (fun _ => PortResp.gone) [] genInputEmpty "fm" "fc" "out1" =
      { attempts := [], delivered := [],
        result := .thrown "payload.payload.text ausente" } :=
  ⟨rfl, validation_throws {} (fun _ => PortResp.gone) [] genInputEmpty "fm" "fc" "out1" rfl⟩

/-! ## Ledger lemmas -/

/-- The aggregate `UpdateExpression` is syntactically invalid for every
role (the `<setMaxSeq>` placeholder was replaced by nothing, leaving two
assignments with no comma between them). -/
theorem updateExpr_invalid (role : String) : validSetExpr (updateExpr role) = false := by
  by_cases h : role = "user"
  · subst h; decide
  · unfold updateExpr updateExprParts
    rw [if_neg h]
    decide

/-- Hence the conversation aggregate is never modified: DynamoDB rejects
the update and the `.catch` swallows the rejection. -/
theorem convUpdate_eq (convs : List ConvItem) (convId role now : String) :
    convUpdate convs convId role now = convs := by
  unfold convUpdate
  rw [updateExpr_invalid]
  simp

theorem strAppend_left_cancel {a b c : String} (h : a ++ b = a ++ c) : b = c := by
  have h2 := congrArg String.data h
  simp only [String.data_append] at h2
  exact String.ext (List.append_cancel_left h2)

/-- Characterisation of `saveOneMessage` for a message with a conversation
in `correlationId` and non-empty text: it always answers
`{ ok := true }` with the resolved message identifier, inserts the item
only if its `(pk, sk)` key is absent, and never changes the conversation
aggregates. -/
theorem saveOne_spec (cfg : SaveCfg) (now : String) (ms : ℤ) (f g : String)
    (st : LedgerState) (m : SaveMsgIn)
    (hcorr : m.correlationId ≠ "") (htext : m.text ≠ "") :
    ∃ item : MsgItem,
      item.pk = "CONV#" ++ m.correlationId ∧
      item.sk = "SEQ#" ++ pad12 (m.sequence.getD 0) ++ "#MSG#" ++
        (if m.messageId = "" then f else m.messageId) ∧
      item.conversationId = m.correlationId ∧
      item.messageId = (if m.messageId = "" then f else m.messageId) ∧
      item.sequence = m.sequence.getD 0 ∧
      saveOneMessage cfg now ms f g st m =
        some (LedgerState.mk
          (if hasKey st item.pk item.sk then st.messages else st.messages ++ [item])
          st.convs,
          SaveResult.mk true (if m.messageId = "" then f else m.messageId)) := by
  refine ⟨mkMsgItem cfg now ms
    { m with
      messageId := if m.messageId = "" then f else m.messageId,
      correlationId := m.correlationId, conversationId := m.correlationId,
      sequence := some (m.sequence.getD 0),
      role := if m.role ≠ "" then m.role
        else if m.messageType = "user" then "user" else "assistant",
      text := m.text }, ?_, ?_, ?_, ?_, ?_, ?_⟩ <;>
    simp [mkMsgItem, saveOneMessage, normalizeMessage, hcorr, htext, convUpdate_eq]

/-! ## Claim C3 — idempotent persist and the aggregate counters -/

/-- **C3, counterexample.**  Persisting `msgM1` twice (same conversation
and message identifier): the second invocation also reports the message
as saved (`saved = 1`, no idempotent hit is counted at the handler —
`saveOneMessage` swallows the duplicate and still returns `ok`), only
one record exists, and the per-conversation aggregate is never created,
so the total-message counter is incremented zero times, not once. -/
theorem persist_twice_cex :
    (saveHandler {} "T" 0 (fun _ => ("fa", "fb")) {} [msgM1]).2.2.2 = 1 ∧
    (saveHandler {} "T" 0 (fun _ => ("fa", "fb"))
        (saveHandler {} "T" 0 (fun _ => ("fa", "fb")) {} [msgM1]).1 [msgM1]).2.2.2 = 1 ∧
    (saveHandler {} "T" 0 (fun _ => ("fa", "fb"))
        (saveHandler {} "T" 0 (fun _ => ("fa", "fb")) {} [msgM1]).1 [msgM1]).2.1.idem = 0 ∧
    (saveHandler {} "T" 0 (fun _ => ("fa", "fb"))
        (saveHandler {} "T" 0 (fun _ => ("fa", "fb")) {} [msgM1]).1 [msgM1]).1.messages.length
      = 1 ∧
    (saveHandler {} "T" 0 (fun _ => ("fa", "fb"))
        (saveHandler {} "T" 0 (fun _ => ("fa", "fb")) {} [msgM1]).1 [msgM1]).1.convs = [] := by
  decide

/-- **C3, amended.**  Calling `persist` twice with the same message
(identical conversation and message identifiers) stores exactly one
durable record, and the duplicate is never treated as an error — but
**both** calls report the message as stored (`ok = true`; the
conditional-check failure is swallowed inside `saveOneMessage`), and the
per-conversation aggregate counters are incremented by **neither** call
(the aggregate update expression is invalid and its rejection is
swallowed), rather than exactly once. -/
theorem persist_idempotent (cfg : SaveCfg) (now1 now2 : String) (ms1 ms2 : ℤ)
    (f1 g1 f2 g2 : String) (st : LedgerState) (m : SaveMsgIn)
    (hmid : m.messageId ≠ "") (hcorr : m.correlationId ≠ "") (htext : m.text ≠ "")
    (habs : hasKey st ("CONV#" ++ m.correlationId)
      ("SEQ#" ++ pad12 (m.sequence.getD 0) ++ "#MSG#" ++ m.messageId) = false) :
    ∃ st1 r1 st2 r2,
      saveOneMessage cfg now1 ms1 f1 g1 st m = some (st1, r1) ∧
      saveOneMessage cfg now2 ms2 f2 g2 st1 m = some (st2, r2) ∧
      r1.ok = true ∧ r2.ok = true ∧
      st1.messages.length = st.messages.length + 1 ∧
      st2.messages = st1.messages ∧
      st1.convs = st.convs ∧ st2.convs = st.convs := by
  obtain ⟨it1, hpk1, hsk1, _, _, _, hrun1⟩ := saveOne_spec cfg now1 ms1 f1 g1 st m hcorr htext
  rw [if_neg hmid] at hsk1
  have hk1 : hasKey st it1.pk it1.sk = false := by rw [hpk1, hsk1]; exact habs
  rw [hk1] at hrun1
  simp only [if_false, Bool.false_eq_true] at hrun1
  obtain ⟨it2, hpk2, hsk2, _, _, _, hrun2⟩ :=
    saveOne_spec cfg now2 ms2 f2 g2
      ({ messages := st.messages ++ [it1], convs := st.convs }) m hcorr htext
  rw [if_neg hmid] at hsk2
  have hk2 : hasKey { messages := st.messages ++ [it1], convs := st.convs } it2.pk it2.sk
      = true := by
    simp only [hasKey, List.any_append, List.any_cons, List.any_nil]
    have : it1.pk = it2.pk ∧ it1.sk = it2.sk := by rw [hpk1, hsk1, hpk2, hsk2]; exact ⟨rfl, rfl⟩
    simp [this.1, this.2]
  rw [hk2] at hrun2
  simp only [if_true] at hrun2
  exact ⟨_, _, _, _, hrun1, hrun2, rfl, rfl, by simp, rfl, rfl, rfl⟩

/-- **C3, witness** for `persist_idempotent` on an empty store. -/
theorem persist_idempotent_witness :
    (msgW.messageId ≠ "" ∧ msgW.correlationId ≠ "" ∧ msgW.text ≠ "" ∧
      hasKey {} ("CONV#" ++ msgW.correlationId)
        ("SEQ#" ++ pad12 (msgW.sequence.getD 0) ++ "#MSG#" ++ msgW.messageId) = false) ∧
    (∃ st1 r1 st2 r2,
      saveOneMessage {} "T1" 0 "f1" "g1" {} msgW = some (st1, r1) ∧
      saveOneMessage {} "T2" 5 "f2" "g2" st1 msgW = some (st2, r2) ∧
      r1.ok = true ∧ r2.ok = true ∧
      st1.messages.length = ({} : LedgerState).messages.length + 1 ∧
      st2.messages = st1.messages ∧
      st1.convs = ({} : LedgerState).convs ∧ st2.convs = ({} : LedgerState).convs) :=
  ⟨⟨by decide, by decide, by decide, by decide⟩,
    persist_idempotent {} "T1" "T2" 0 5 "f1" "g1" "f2" "g2" {} msgW
      (by decide) (by decide) (by decide) (by decide)⟩

/-! ## Claim C6 — `lastSequence` and the aggregate update -/

/-- **C6** (code bug): the built `UpdateExpression` — shown literally for
the assistant branch — has no comma between the `#lastSeq` clause and
the `#countTotal` clause (the `<setMaxSeq>` placeholder became the empty
string), so it is syntactically invalid for both roles and the swallowed
rejection leaves the conversation table untouched on every successful
create (here: persisting `msgSeq5`, sequence 5, into an empty store).
Even the written clause would only initialise `lastSequence` to −1 via
`if_not_exists`; no `max(current, sequence)` remains in the code. -/
theorem lastSequence_never_updated :
    updateExpr "assistant" =
      "SET #type = if_not_exists(#type, :type), #lastAt = :now, #lastSeq = if_not_exists(#lastSeq, :neg1)        #countTotal = if_not_exists(#countTotal, :zero) + :one, #countAssistant = if_not_exists(#countAssistant, :zero) + :one, #updatedAt = :now" ∧
    validSetExpr (updateExpr "assistant") = false ∧
    validSetExpr (updateExpr "user") = false ∧
    ((saveOneMessage {} "T" 0 "f1" "f2" {} msgSeq5).map (fun r => r.1.convs)) = some [] ∧
    (applyWrittenUpdate [] "c1" "assistant" "T").map (fun c => c.lastSequence) = [some (-1)] := by
  decide

/-! ## Claim C7 — the storage key -/

/-- **C7, counterexample.**  A retried persist of the *same*
`(conversationId, messageId)` pair carrying a different caller-assigned
sequence creates a **second** record: the storage key includes the
sequence, so uniqueness is not per (conversation identifier, message
identifier). -/
theorem key_includes_sequence_cex :
    ((saveOneMessage {} "T" 0 "f1" "f2" {} msgM1).bind (fun r1 =>
      (saveOneMessage {} "T" 0 "f1" "f2" r1.1 msgM1seq2).map (fun r2 =>
        (r2.1.messages.length,
          r2.1.messages.map (fun it => (it.conversationId, it.messageId)))))) =
      some (2, [("c1", "m1"), ("c1", "m1")]) := by
  decide

/-- **C7, amended.**  The create-only write's primary key is a function
of the conversation identifier, the caller-assigned **sequence**, and
the message identifier (`pk = CONV#conv`,
`sk = SEQ#pad(sequence)#MSG#messageId`): repeating `persist` with an
identical (conversation, sequence, message) triple stores nothing new,
so at most one record exists per such triple — but a retried invocation
carrying a different sequence produces a different key (see the
counterexample) and hence a second record. -/
theorem storage_key_triple (cfg : SaveCfg) (now1 now2 : String) (ms1 ms2 : ℤ)
    (f1 g1 f2 g2 : String) (st : LedgerState) (m : SaveMsgIn)
    (hmid : m.messageId ≠ "") (hcorr : m.correlationId ≠ "") (htext : m.text ≠ "")
    (habs : hasKey st ("CONV#" ++ m.correlationId)
      ("SEQ#" ++ pad12 (m.sequence.getD 0) ++ "#MSG#" ++ m.messageId) = false) :
    ∃ st1 r1 st2 r2 item,
      saveOneMessage cfg now1 ms1 f1 g1 st m = some (st1, r1) ∧
      saveOneMessage cfg now2 ms2 f2 g2 st1 m = some (st2, r2) ∧
      st1.messages = st.messages ++ [item] ∧
      item.pk = "CONV#" ++ m.correlationId ∧
      item.sk = "SEQ#" ++ pad12 (m.sequence.getD 0) ++ "#MSG#" ++ m.messageId ∧
      st2.messages = st1.messages := by
  obtain ⟨it1, hpk1, hsk1, _, _, _, hrun1⟩ := saveOne_spec cfg now1 ms1 f1 g1 st m hcorr htext
  rw [if_neg hmid] at hsk1
  have hk1 : hasKey st it1.pk it1.sk = false := by rw [hpk1, hsk1]; exact habs
  rw [hk1] at hrun1
  simp only [if_false, Bool.false_eq_true] at hrun1
  obtain ⟨it2, hpk2, hsk2, _, _, _, hrun2⟩ :=
    saveOne_spec cfg now2 ms2 f2 g2
      ({ messages := st.messages ++ [it1], convs := st.convs }) m hcorr htext
  rw [if_neg hmid] at hsk2
  have hk2 : hasKey { messages := st.messages ++ [it1], convs := st.convs } it2.pk it2.sk
      = true := by
    simp only [hasKey, List.any_append, List.any_cons, List.any_nil]
    have : it1.pk = it2.pk ∧ it1.sk = it2.sk := by rw [hpk1, hsk1, hpk2, hsk2]; exact ⟨rfl, rfl⟩
    simp [this.1, this.2]
  rw [hk2] at hrun2
  simp only [if_true] at hrun2
  exact ⟨_, _, _, _, it1, hrun1, hrun2, rfl, hpk1, hsk1, rfl⟩

/-- **C7, witness** for `storage_key_triple`. -/
theorem storage_key_triple_witness :
    (msgW.messageId ≠ "" ∧ msgW.correlationId ≠ "" ∧ msgW.text ≠ "" ∧
      hasKey {} ("CONV#" ++ msgW.correlationId)
        ("SEQ#" ++ pad12 (msgW.sequence.getD 0) ++ "#MSG#" ++ msgW.messageId) = false) ∧
    (∃ st1 r1 st2 r2 item,
      saveOneMessage {} "T1" 0 "f1" "g1" {} msgW = some (st1, r1) ∧
      saveOneMessage {} "T2" 5 "f2" "g2" st1 msgW = some (st2, r2) ∧
      st1.messages = ({} : LedgerState).messages ++ [item] ∧
      item.pk = "CONV#" ++ msgW.correlationId ∧
      item.sk = "SEQ#" ++ pad12 (msgW.sequence.getD 0) ++ "#MSG#" ++ msgW.messageId ∧
      st2.messages = st1.messages) :=
  ⟨⟨by decide, by decide, by decide, by decide⟩,
    storage_key_triple {} "T1" "T2" 0 5 "f1" "g1" "f2" "g2" {} msgW
      (by decide) (by decide) (by decide) (by decide)⟩

/-! ## Claim C10 — messages without a caller-supplied identifier -/

/-- **C10, confirmed.**  If the message carries no message identifier,
`normalizeMessage` assigns the freshly generated UUID before writing, so
two persist calls whose fresh draws differ create two distinct stored
records: duplicate detection applies only to caller-supplied
identifiers. -/
theorem fresh_id_distinct (cfg : SaveCfg) (now1 now2 : String) (ms1 ms2 : ℤ)
    (f1 g1 f2 g2 : String) (st : LedgerState) (m : SaveMsgIn)
    (hne : f1 ≠ f2) (hmid : m.messageId = "")
    (hcorr : m.correlationId ≠ "") (htext : m.text ≠ "")
    (habs1 : hasKey st ("CONV#" ++ m.correlationId)
      ("SEQ#" ++ pad12 (m.sequence.getD 0) ++ "#MSG#" ++ f1) = false)
    (habs2 : hasKey st ("CONV#" ++ m.correlationId)
      ("SEQ#" ++ pad12 (m.sequence.getD 0) ++ "#MSG#" ++ f2) = false) :
    ∃ st1 r1 st2 r2,
      saveOneMessage cfg now1 ms1 f1 g1 st m = some (st1, r1) ∧
      saveOneMessage cfg now2 ms2 f2 g2 st1 m = some (st2, r2) ∧
      r1.messageId = f1 ∧ r2.messageId = f2 ∧
      st2.messages.length = st.messages.length + 2 := by
  obtain ⟨it1, hpk1, hsk1, _, _, _, hrun1⟩ := saveOne_spec cfg now1 ms1 f1 g1 st m hcorr htext
  rw [if_pos hmid] at hsk1
  have hk1 : hasKey st it1.pk it1.sk = false := by rw [hpk1, hsk1]; exact habs1
  rw [hk1] at hrun1
  simp only [if_false, Bool.false_eq_true] at hrun1
  obtain ⟨it2, hpk2, hsk2, _, _, _, hrun2⟩ :=
    saveOne_spec cfg now2 ms2 f2 g2
      ({ messages := st.messages ++ [it1], convs := st.convs }) m hcorr htext
  rw [if_pos hmid] at hsk2
  have hsne : it1.sk ≠ it2.sk := by
    rw [hsk1, hsk2]
    intro hcontra
    exact hne (strAppend_left_cancel hcontra)
  have hk2 : hasKey { messages := st.messages ++ [it1], convs := st.convs } it2.pk it2.sk
      = false := by
    have h1 : hasKey st it2.pk it2.sk = false := by rw [hpk2, hsk2]; exact habs2
    simp only [hasKey, List.any_append, List.any_cons, List.any_nil, Bool.or_false] at h1 ⊢
    rw [h1]
    simp [hsne]
  rw [hk2] at hrun2
  simp only [Bool.false_eq_true, if_false] at hrun2
  refine ⟨_, _, _, _, hrun1, hrun2, by simp [hmid], by simp [hmid], by simp⟩

/-- **C10, witness** for `fresh_id_distinct`: two calls with distinct
fresh UUIDs on an empty store yield two records. -/
theorem fresh_id_distinct_witness :
    (("u1" : String) ≠ "u2" ∧ msgNoId.messageId = "" ∧ msgNoId.correlationId ≠ "" ∧
      msgNoId.text ≠ "" ∧
      hasKey {} ("CONV#" ++ msgNoId.correlationId)
        ("SEQ#" ++ pad12 (msgNoId.sequence.getD 0) ++ "#MSG#" ++ "u1") = false ∧
      hasKey {} ("CONV#" ++ msgNoId.correlationId)
        ("SEQ#" ++ pad12 (msgNoId.sequence.getD 0) ++ "#MSG#" ++ "u2") = false) ∧
    (∃ st1 r1 st2 r2,
      saveOneMessage {} "T1" 0 "u1" "g1" {} msgNoId = some (st1, r1) ∧
      saveOneMessage {} "T2" 5 "u2" "g2" st1 msgNoId = some (st2, r2) ∧
      r1.messageId = "u1" ∧ r2.messageId = "u2" ∧
      st2.messages.length = ({} : LedgerState).messages.length + 2) :=
  ⟨⟨by decide, rfl, by decide, by decide, by decide, by decide⟩,
    fresh_id_distinct {} "T1" "T2" 0 5 "u1" "g1" "u2" "g2" {} msgNoId
      (by decide) rfl (by decide) (by decide) (by decide) (by decide)⟩

end AletheIA
